import Mathlib

/-!
Shallow embedding of the core of the mrcharlohfx trading backend:
the copy-trade replicator (`CopyTradeService`, src/unnamed/part_000),
the bot execution engine (`BotExecutor`, src/unnamed/part_001) and the
per-user Deriv WebSocket session manager (`DerivWebSocketManager`,
src/unnamed/part_002).  JavaScript numbers are modelled as exact
rationals; JavaScript `Map` lookups that default missing keys
(`get(k) || 0`, get-or-create of empty sets) are modelled as total
functions with the corresponding default value.
-/

/-- JavaScript truthiness of an optional numeric setting: a missing value
and the number `0` are both falsy. -/
def jsTruthy : Option ℚ → Bool
  | none => false
  | some v => v != 0

/-- A user's `copyTradeSettings` record as read by the copy-trade service. -/
structure CopySettings where
  enabled : Bool
  investmentPerTrade : Option ℚ
  riskPercentage : Option ℚ
  maxDailyLoss : ℚ
deriving DecidableEq

/-- Everything `CopyTradeService.copyTradeToFollower` (part_000:80-153)
consults about one follower: the `User.findById` result (`found`), the
follower's settings, whether `follower.following` still contains the leader,
the service's `dailyLoss.get(followerId) || 0` value, the session-manager
`isConnected` answer, the follower's balance, and whether the persistence
call `Trade.create` throws for this follower. -/
structure FollowerRec where
  found : Bool
  settings : CopySettings
  followingLeader : Bool
  dailyLoss : ℚ
  connected : Bool
  balance : ℚ
  createThrows : Bool
deriving DecidableEq

/-- `CopyTradeService.calculateFollowerStake` (part_000:156-171): fixed
`investmentPerTrade` if truthy, else `balance * riskPercentage / 100` if
truthy, else `min(originalStake, balance * 0.02)`. -/
def calculateFollowerStake (follower : FollowerRec) (originalStake : ℚ) : ℚ :=
  if jsTruthy follower.settings.investmentPerTrade then
    follower.settings.investmentPerTrade.getD 0
  else if jsTruthy follower.settings.riskPercentage then
    follower.balance * follower.settings.riskPercentage.getD 0 / 100
  else
    min originalStake (follower.balance * (2 / 100))

/-- Outcome of `copyTradeToFollower` for one follower: one of the silent
early returns, a successfully created copy-trade record, or a thrown
exception (caught by the loop in `replicateTrade`). -/
inductive CopyOutcome where
  | skippedDisabled
  | skippedNotFollowing
  | skippedDailyLoss
  | skippedNotConnected
  | skippedBalance
  | created (stake : ℚ)
  | failed
deriving DecidableEq

/-- `CopyTradeService.copyTradeToFollower` (part_000:80-153), with the
guard cascade in source order: follower missing or copy-trading disabled,
no longer following the leader, daily-loss ceiling reached, session not
connected, insufficient balance for the computed stake; otherwise the
copy-trade record is created (or the creation throws). -/
def copyTradeToFollower (f : FollowerRec) (originalStake : ℚ) : CopyOutcome :=
  if !f.found || !f.settings.enabled then .skippedDisabled
  else if !f.followingLeader then .skippedNotFollowing
  else if f.dailyLoss ≥ f.settings.maxDailyLoss then .skippedDailyLoss
  else if !f.connected then .skippedNotConnected
  else if f.balance < calculateFollowerStake f originalStake then .skippedBalance
  else if f.createThrows then .failed
  else .created (calculateFollowerStake f originalStake)

/-- The per-follower loop of `CopyTradeService.replicateTrade`
(part_000:66-72): every registered follower is processed, each inside its
own try/catch, so one follower's exception cannot stop the loop. -/
def replicateTrade (followers : List FollowerRec) (originalStake : ℚ) : List CopyOutcome :=
  followers.map fun f => copyTradeToFollower f originalStake

/-- Whether an outcome is a successfully created copy trade. -/
def isCreatedOutcome : CopyOutcome → Bool
  | .created _ => true
  | _ => false

/-- Specification-side predicate: a follower for whom every guard of
`copyTradeToFollower` passes and creation does not throw. -/
def copySucceeds (f : FollowerRec) (originalStake : ℚ) : Bool :=
  f.found && f.settings.enabled && f.followingLeader &&
    decide (f.dailyLoss < f.settings.maxDailyLoss) && f.connected &&
    decide (calculateFollowerStake f originalStake ≤ f.balance) && !f.createThrows

/-- A follower whose copy-trading feature is disabled. -/
def followerDisabled : FollowerRec :=
  { found := true
  , settings := { enabled := false, investmentPerTrade := some 10, riskPercentage := none, maxDailyLoss := 100 }
  , followingLeader := true, dailyLoss := 0, connected := true, balance := 500, createThrows := false }

/-- A follower whose balance is below the computed stake. -/
def followerBroke : FollowerRec :=
  { found := true
  , settings := { enabled := true, investmentPerTrade := some 50, riskPercentage := none, maxDailyLoss := 100 }
  , followingLeader := true, dailyLoss := 0, connected := true, balance := 20, createThrows := false }

/-- A follower who passes every guard. -/
def followerOk : FollowerRec :=
  { found := true
  , settings := { enabled := true, investmentPerTrade := some 10, riskPercentage := none, maxDailyLoss := 100 }
  , followingLeader := true, dailyLoss := 0, connected := true, balance := 500, createThrows := false }

/-- A follower configured with balance 1000, riskPercentage 5 and no fixed
per-trade investment. -/
def percentFollower : FollowerRec :=
  { found := true
  , settings := { enabled := true, investmentPerTrade := none, riskPercentage := some 5, maxDailyLoss := 100 }
  , followingLeader := true, dailyLoss := 0, connected := true, balance := 1000, createThrows := false }

/-- In-memory state of `CopyTradeService` (part_000:5-10): the
leader-to-followers registry and the per-follower daily-loss map, both
modelled as total functions with the source's missing-key defaults
(empty set, zero). -/
structure CopyTradeServiceState where
  followers : Nat → Finset Nat
  dailyLoss : Nat → ℚ

/-- `CopyTradeService.registerFollower` (part_000:22-31): adds the follower
to the leader's set and unconditionally sets the follower's daily-loss
entry to zero. -/
def registerFollower (s : CopyTradeServiceState) (followerId leaderId : Nat) :
    CopyTradeServiceState where
  followers := fun l => if l = leaderId then insert followerId (s.followers l) else s.followers l
  dailyLoss := fun f => if f = followerId then 0 else s.dailyLoss f

/-- The max-daily-loss gate of `copyTradeToFollower` (part_000:94-99) read
off the service state: blocks when `dailyLoss.get(followerId) || 0` has
reached the follower's ceiling. -/
def dailyLossGateBlocks (s : CopyTradeServiceState) (followerId : Nat) (maxDailyLoss : ℚ) : Bool :=
  decide (s.dailyLoss followerId ≥ maxDailyLoss)

/-- A service state in which follower 7 has already accrued a daily loss of
200, enough to block any gate with ceiling at most 200. -/
def blockedState : CopyTradeServiceState where
  followers := fun _ => ∅
  dailyLoss := fun _ => 200

/-- The consecutive price changes examined by the loop of
`BotExecutor.calculateRSI` (part_001:279-283): differences of adjacent
prices over the last `period + 1` entries of the window. -/
def rsiChanges (prices : List ℚ) (period : Nat) : List ℚ :=
  ((prices.drop (prices.length - (period + 1))).zip
      (prices.drop (prices.length - (period + 1))).tail).map fun c => c.2 - c.1

/-- The accumulated positive changes (`gains`, part_001:276-283). -/
def rsiGains (prices : List ℚ) (period : Nat) : ℚ :=
  ((rsiChanges prices period).filter fun c => decide (0 < c)).sum

/-- The accumulated negated non-positive changes (`losses`,
part_001:276-283). -/
def rsiLosses (prices : List ℚ) (period : Nat) : ℚ :=
  -((rsiChanges prices period).filter fun c => decide (c ≤ 0)).sum

/-- `BotExecutor.calculateRSI` (part_001:273-291): `null` (here `none`)
when fewer than `period + 1` prices are available; `100` when the average
loss is zero; otherwise `100 - 100 / (1 + RS)` with `RS` the ratio of
average gain to average loss. -/
def calculateRSI (prices : List ℚ) (period : Nat) : Option ℚ :=
  if prices.length < period + 1 then none
  else if rsiLosses prices period / (period : ℚ) = 0 then some 100
  else some (100 - 100 / (1 +
    (rsiGains prices period / (period : ℚ)) / (rsiLosses prices period / (period : ℚ))))

/-- `BotExecutor.calculateSMA` (part_001:252-256): arithmetic mean of the
last `period` prices, `null` (here `none`) when too few are available. -/
def calculateSMA (prices : List ℚ) (period : Nat) : Option ℚ :=
  if prices.length < period then none
  else some ((prices.drop (prices.length - period)).sum / (period : ℚ))

/-- The record returned by `calculateBollingerBands` (part_001:318-322). -/
structure BollingerBands where
  upper : ℚ
  middle : ℚ
  lower : ℚ
deriving DecidableEq

/-- The population variance computed at part_001:314-315: mean of squared
deviations from the SMA over the last `period` prices. -/
def bollingerVariance (prices : List ℚ) (period : Nat) (sma : ℚ) : ℚ :=
  ((prices.drop (prices.length - period)).map fun p => (p - sma) ^ 2).sum / (period : ℚ)

/-- `BotExecutor.calculateBollingerBands` (part_001:310-323), including the
JavaScript truthiness guard `if (!sma) return null` (part_001:312), which
rejects both a null SMA (too few prices) and a zero SMA (falsy).
`Math.sqrt` has no exact counterpart on ℚ, so the standard deviation is
passed as the argument `sd`; the theorems characterise it exactly by
`0 ≤ sd` together with `sd ^ 2 = bollingerVariance prices period sma`. -/
def calculateBollingerBands (prices : List ℚ) (period : Nat) (stdDev : ℚ) (sd : ℚ) :
    Option BollingerBands :=
  match calculateSMA prices period with
  | none => none
  | some sma =>
      if sma = 0 then none
      else some { upper := sma + sd * stdDev, middle := sma, lower := sma - sd * stdDev }

/-- One decoded inbound frame of `DerivWebSocketManager.handleMessage`
(part_002:76-146); each flag is the JavaScript truthiness of the
corresponding top-level key of the parsed message. -/
structure Frame where
  authorize : Bool
  balance : Bool
  portfolio : Bool
  statement : Bool
  tick : Bool
  proposal : Bool
  buy : Bool
  proposalOpenContract : Bool
  error : Bool
  ping : Bool
deriving DecidableEq

/-- The typed events `handleMessage` can emit. -/
inductive WSEvent where
  | authenticated
  | balanceEvt
  | portfolioEvt
  | statementEvt
  | tickEvt
  | proposalEvt
  | buyEvt
  | contractUpdate
  | apiError
deriving DecidableEq

/-- `DerivWebSocketManager.handleMessage` (part_002:76-146): the list of
typed events emitted for one frame, in emission order.  Every recognised
key is tested by an independent `if` (not `else if`); the `ping` branch
replies with a pong but emits no typed event; a frame with no recognised
key falls through every branch and is dropped without error (the
surrounding try/catch only guards JSON parsing). -/
def handleMessage (f : Frame) : List WSEvent :=
  (if f.authorize then [.authenticated] else []) ++
  (if f.balance then [.balanceEvt] else []) ++
  (if f.portfolio then [.portfolioEvt] else []) ++
  (if f.statement then [.statementEvt] else []) ++
  (if f.tick then [.tickEvt] else []) ++
  (if f.proposal then [.proposalEvt] else []) ++
  (if f.buy then [.buyEvt] else []) ++
  (if f.proposalOpenContract then [.contractUpdate] else []) ++
  (if f.error then [.apiError] else [])

/-- Number of recognised event-bearing top-level keys present in a frame. -/
def recognisedKeyCount (f : Frame) : Nat :=
  (if f.authorize then 1 else 0) +
  (if f.balance then 1 else 0) +
  (if f.portfolio then 1 else 0) +
  (if f.statement then 1 else 0) +
  (if f.tick then 1 else 0) +
  (if f.proposal then 1 else 0) +
  (if f.buy then 1 else 0) +
  (if f.proposalOpenContract then 1 else 0) +
  (if f.error then 1 else 0)

/-- A frame carrying both a `balance` and a `tick` top-level key. -/
def frameBalanceTick : Frame :=
  { authorize := false, balance := true, portfolio := false, statement := false
  , tick := true, proposal := false, buy := false, proposalOpenContract := false
  , error := false, ping := false }

/-- Per-user connection bookkeeping created by
`DerivWebSocketManager.connect` (part_002:26-34): authentication flag,
whether the transport socket is open, the subscription keys, the outbound
message queue (FIFO), and the stored Deriv token. -/
structure ConnectionData where
  isAuthenticated : Bool
  socketOpen : Bool
  subscriptions : List String
  messageQueue : List Nat
  token : Nat
deriving DecidableEq

/-- One user's slot of the session manager: the `connections` map entry and
the `reconnectAttempts` map entry. -/
structure SessionState where
  connection : Option ConnectionData
  reconnectAttempts : Option Nat
deriving DecidableEq

/-- `DerivWebSocketManager.connect` (part_002:16-65): tears down any prior
connection and stores a fresh `connectionData` whose subscription set and
message queue are empty, then resets the attempt counter to zero; nothing
of the prior connection's subscription set or queue is carried over. -/
def wsConnect (_prior : SessionState) (token : Nat) : SessionState :=
  { connection := some
      { isAuthenticated := false, socketOpen := false
      , subscriptions := [], messageQueue := [], token := token }
  , reconnectAttempts := some 0 }

/-- The reconnect timer armed by `handleDisconnect` (part_002:280-285): if
the user's connection entry still exists, call `connect` again with the
stored token. -/
def reconnectTimerFire (s : SessionState) : SessionState :=
  match s.connection with
  | none => s
  | some c => wsConnect s c.token

/-- The authorize branch of `handleMessage` (part_002:84-94): mark the
session authenticated, flush the queued messages in FIFO order (returned
here as the second component), and re-subscribe only the initial data
streams (balance, portfolio, statement) — tick subscriptions are not
re-issued anywhere on this path. -/
def handleAuthorize (s : SessionState) : SessionState × List Nat :=
  match s.connection with
  | none => (s, [])
  | some c =>
      ({ s with connection := some { c with isAuthenticated := true, messageQueue := [] } }
      , c.messageQueue)

/-- A session as it stands right after an unexpected close: previously
authenticated, subscribed to `ticks_R_100`, with message 42 queued while
the transport was unavailable. -/
def preCloseSession : SessionState :=
  { connection := some
      { isAuthenticated := true, socketOpen := false
      , subscriptions := ["ticks_R_100"], messageQueue := [42], token := 7 }
  , reconnectAttempts := some 1 }

/-- Reconnect bookkeeping for one user (part_002:9-13, 273-292):
whether the `connections` entry exists, the `reconnectAttempts` entry,
the number of reconnect timers armed so far, the delays they were armed
with (in milliseconds), and the number of `max_reconnect_failed`
emissions. -/
structure ReconnectState where
  hasConnection : Bool
  attempts : Option Nat
  scheduledReconnects : Nat
  delays : List Nat
  giveUpEvents : Nat
deriving DecidableEq

/-- `maxReconnectAttempts` (part_002:11). -/
def maxReconnectAttempts : Nat := 5

/-- `reconnectDelay` in milliseconds (part_002:12). -/
def reconnectDelay : Nat := 3000

/-- `DerivWebSocketManager.handleDisconnect` (part_002:273-292): below the
ceiling, bump the attempt counter and arm a timer with delay
`reconnectDelay * (attempts + 1)`; at the ceiling, emit
`max_reconnect_failed` once and delete the connection and counter
entries. -/
def handleDisconnect (s : ReconnectState) : ReconnectState :=
  let attempts := s.attempts.getD 0
  if attempts < maxReconnectAttempts then
    { s with attempts := some (attempts + 1)
           , scheduledReconnects := s.scheduledReconnects + 1
           , delays := s.delays ++ [reconnectDelay * (attempts + 1)] }
  else
    { s with giveUpEvents := s.giveUpEvents + 1
           , hasConnection := false
           , attempts := none }

/-- The armed timer firing (part_002:280-285): when the connection entry
still exists (the token is always stored with it), run `connect`, which
stores a fresh connection and resets the attempt counter to zero
(part_002:56-58). -/
def reconnectConnect (s : ReconnectState) : ReconnectState :=
  if s.hasConnection then { s with attempts := some 0 } else s

/-- The two externally driven events of the reconnect loop. -/
inductive ReconnectEvent where
  | unexpectedClose
  | timerFires
deriving DecidableEq

/-- Dispatch one reconnect-loop event. -/
def reconnectStep (s : ReconnectState) : ReconnectEvent → ReconnectState
  | .unexpectedClose => handleDisconnect s
  | .timerFires => reconnectConnect s

/-- Run a sequence of reconnect-loop events. -/
def runReconnect (s : ReconnectState) (evts : List ReconnectEvent) : ReconnectState :=
  evts.foldl reconnectStep s

/-- The state right after a fresh successful `connect`. -/
def connectedReconnectState : ReconnectState :=
  { hasConnection := true, attempts := some 0
  , scheduledReconnects := 0, delays := [], giveUpEvents := 0 }

/-- Execution state of one bot context across the asynchronous micro-steps
of `handleTickUpdate` / `evaluateTradeSignal` / `placeTrade`
(part_001:114-197, 414-466).  `pendingCreates` are `Trade.create` calls
already issued whose promises have not yet resolved: the `await` at
part_001:422 suspends `placeTrade` there, and only the resumed
continuation (part_001:445-456) sends the proposal and finally assigns
`botData.currentTrade`. -/
structure BotRunState where
  currentTrade : Option Nat
  pendingCreates : List Nat
  createdTrades : List Nat
  proposals : List Nat
  nextId : Nat
deriving DecidableEq

/-- The externally scheduled micro-events of the bot run: a tick being
dispatched to the context (with the strategy signal collapsed to whether
it is non-HOLD), a pending `Trade.create` resolving (which runs the rest
of `placeTrade`), and a contract settlement (`handleContractUpdate`
clearing the slot). -/
inductive BotRunEvent where
  | tickDelivered (signalNonHold : Bool)
  | createResolved
  | contractSettled (tid : Nat)
deriving DecidableEq

/-- One micro-step.  On a tick, `evaluateTradeSignal` returns at once when
`botData.currentTrade` is non-null (part_001:159); otherwise a non-HOLD
signal reaches `placeTrade`, which issues `Trade.create` and suspends at
the `await` (part_001:422).  When a create resolves, the continuation
records the created trade, sends the proposal request (part_001:446) and
only then occupies the current-trade slot (part_001:456).  A settlement
for the current trade clears the slot (part_001:513-515). -/
def botRunStep (s : BotRunState) : BotRunEvent → BotRunState
  | .tickDelivered signal =>
      if s.currentTrade.isSome then s
      else if signal then
        { s with pendingCreates := s.pendingCreates ++ [s.nextId], nextId := s.nextId + 1 }
      else s
  | .createResolved =>
      match s.pendingCreates with
      | [] => s
      | tid :: rest =>
          { s with pendingCreates := rest
                 , createdTrades := s.createdTrades ++ [tid]
                 , proposals := s.proposals ++ [tid]
                 , currentTrade := some tid }
  | .contractSettled tid =>
      if s.currentTrade = some tid then { s with currentTrade := none } else s

/-- Run a schedule of bot micro-events. -/
def runBot (s : BotRunState) (evts : List BotRunEvent) : BotRunState :=
  evts.foldl botRunStep s

/-- A freshly started bot context (part_001:50-60). -/
def botRunInit : BotRunState :=
  { currentTrade := none, pendingCreates := [], createdTrades := [], proposals := []
  , nextId := 0 }

/-- A contract's terminal classification as compared in
`handleContractUpdate` (part_001:502): the `won` and `lost` strings, or
anything else. -/
inductive ContractStatus where
  | won
  | lost
  | other
deriving DecidableEq

/-- A `proposal_open_contract` update as consumed by
`BotExecutor.handleContractUpdate`: the trade record it resolves to (by
contract id), the `is_sold` flag, the status and the profit. -/
structure ContractUpdate where
  tradeId : Nat
  isSold : Bool
  status : ContractStatus
  profit : ℚ
deriving DecidableEq

/-- The finished test of part_001:502. -/
def contractFinished (e : ContractUpdate) : Bool :=
  e.isSold || e.status == .won || e.status == .lost

/-- The per-context risk state mutated by the executor
(part_001:50-60, 513-526). -/
structure BotCtx where
  currentTrade : Option Nat
  dailyLoss : ℚ
  consecutiveLosses : Nat
deriving DecidableEq

/-- `BotExecutor.handleContractUpdate` restricted to one bot context
(part_001:495-533): when the contract is finished and the settled trade is
this context's current trade, the slot is cleared and, on a loss, the
daily-loss accumulator grows by the absolute profit and the
consecutive-loss counter is bumped (reset to zero otherwise). -/
def handleContractUpdate (s : BotCtx) (e : ContractUpdate) : BotCtx :=
  if contractFinished e then
    match s.currentTrade with
    | some tid =>
        if tid = e.tradeId then
          { currentTrade := none
          , dailyLoss := if e.status = .lost then s.dailyLoss + |e.profit| else s.dailyLoss
          , consecutiveLosses := if e.status = .lost then s.consecutiveLosses + 1 else 0 }
        else s
    | none => s
  else s

/-- The events a bot context's risk state reacts to: `placeTrade` storing
the current trade (part_001:456) and a contract update. -/
inductive BotCtxEvent where
  | tradeOpened (tid : Nat)
  | update (e : ContractUpdate)
deriving DecidableEq

/-- Dispatch one bot-context event. -/
def botCtxStep (s : BotCtx) : BotCtxEvent → BotCtx
  | .tradeOpened tid => { s with currentTrade := some tid }
  | .update e => handleContractUpdate s e

/-- Specification-side projection: how the current-trade slot alone
evolves under an event. -/
def slotStep (ct : Option Nat) : BotCtxEvent → Option Nat
  | .tradeOpened tid => some tid
  | .update e => if contractFinished e && ct == some e.tradeId then none else ct

/-- Specification-side: the loss magnitude an event contributes when it
settles the context's current trade with status lost. -/
def eventLossContribution (ct : Option Nat) : BotCtxEvent → ℚ
  | .update e =>
      if contractFinished e && ct == some e.tradeId && e.status == .lost then |e.profit| else 0
  | .tradeOpened _ => 0

/-- Specification-side: total of the absolute loss magnitudes of the
trades the settlement handler attributes to the context along a run. -/
def attributedLosses (ct : Option Nat) : List BotCtxEvent → ℚ
  | [] => 0
  | ev :: rest => eventLossContribution ct ev + attributedLosses (slotStep ct ev) rest

/-- One event seen by a copy-trade follower's daily-loss accumulator: a
contract update delivered to the per-copy-trade listener (with `matched`
collapsing the user and trade-record guards of part_000:178-182), an
external `resetDailyLoss` call, or a `registerFollower` call for this
follower (part_000:22-31), which also zeroes the accumulator. -/
inductive FollowerEvent where
  | settlement (matched : Bool) (status : ContractStatus) (profit : ℚ)
  | resetDailyLoss
  | register
deriving DecidableEq

/-- One step of the follower's daily-loss accumulator: the per-copy-trade
`contract_update` listener (part_000:174-200) adds the absolute profit on
a matched lost settlement; `CopyTradeService.resetDailyLoss`
(part_000:202-206) clears the map (the entry reads back as zero); and
`registerFollower` unconditionally sets the entry to zero
(part_000:28). -/
def followerStep (dl : ℚ) : FollowerEvent → ℚ
  | .settlement matched status profit =>
      if matched && status == .lost then dl + |profit| else dl
  | .resetDailyLoss => 0
  | .register => 0

/-- Specification-side: the loss a follower event contributes. -/
def followerLossContribution : FollowerEvent → ℚ
  | .settlement matched status profit => if matched && status == .lost then |profit| else 0
  | .resetDailyLoss => 0
  | .register => 0

/-- Whether a follower event is a `resetDailyLoss` call. -/
def isResetEvent : FollowerEvent → Bool
  | .resetDailyLoss => true
  | _ => false

/-- Whether a follower event zeroes the accumulator: a `resetDailyLoss`
call or a `registerFollower` re-registration. -/
def zeroesAccumulator : FollowerEvent → Bool
  | .resetDailyLoss => true
  | .register => true
  | _ => false

/-- Specification-side: the events since the most recent `resetDailyLoss`
call (the reset notion of the claim as stated). -/
def sinceLastReset (evts : List FollowerEvent) : List FollowerEvent :=
  (evts.reverse.takeWhile fun e => !isResetEvent e).reverse

/-- Specification-side: the events since the most recent accumulator
zeroing, whether by `resetDailyLoss` or by `registerFollower`. -/
def sinceLastZeroing (evts : List FollowerEvent) : List FollowerEvent :=
  (evts.reverse.takeWhile fun e => !zeroesAccumulator e).reverse

/-- A follower run: registration, a matched lost settlement of magnitude
200, then a re-registration (for example to follow a second leader). -/
def reRegistrationRun : List FollowerEvent :=
  [.register, .settlement true .lost (-200), .register]

theorem isCreated_copyTradeToFollower (f : FollowerRec) (st : ℚ) :
    isCreatedOutcome (copyTradeToFollower f st) = copySucceeds f st := by
  unfold copyTradeToFollower copySucceeds
  split_ifs with h1 h2 h3 h4 h5 h6 <;>
    simp_all [isCreatedOutcome, not_lt, not_le, le_of_lt]
  rcases h1 with h | h <;> intros <;> simp_all

theorem chain_rel_zip_tail {r : ℚ → ℚ → Prop} :
    ∀ l : List ℚ, List.Chain' r l → ∀ p ∈ l.zip l.tail, r p.1 p.2
  | [], _, p, hp => by simp at hp
  | [_], _, p, hp => by simp at hp
  | a :: b :: t, h, p, hp => by
      rcases List.chain'_cons.mp h with ⟨hab, ht⟩
      simp only [List.tail_cons, List.zip_cons_cons, List.mem_cons] at hp
      rcases hp with rfl | hp
      · exact hab
      · exact chain_rel_zip_tail (b :: t) ht p (by simpa using hp)

theorem sum_neg_of_mem_neg : ∀ l : List ℚ, (∀ a ∈ l, a < 0) → l ≠ [] → l.sum < 0
  | [], _, hne => absurd rfl hne
  | a :: t, h, _ => by
      rcases eq_or_ne t [] with rfl | hne
      · simpa using h a (by simp)
      · have ht := sum_neg_of_mem_neg t (fun b hb => h b (List.mem_cons_of_mem _ hb)) hne
        have ha := h a (List.mem_cons_self a t)
        simp only [List.sum_cons]
        linarith

theorem sum_map_add_const (l : List ℚ) (c : ℚ) :
    (l.map fun p => p + c).sum = l.sum + l.length * c := by
  induction l with
  | nil => simp
  | cons a t ih =>
      simp only [List.map_cons, List.sum_cons, List.length_cons, ih]
      push_cast
      ring

theorem botCtxStep_currentTrade (s : BotCtx) (ev : BotCtxEvent) :
    (botCtxStep s ev).currentTrade = slotStep s.currentTrade ev := by
  cases ev with
  | tradeOpened tid => rfl
  | update e =>
      unfold botCtxStep handleContractUpdate slotStep
      rcases hct : s.currentTrade with _ | tid
      · cases hfin : contractFinished e <;> simp [hfin, hct]
      · cases hfin : contractFinished e <;> by_cases htid : tid = e.tradeId <;>
          simp [hfin, htid, hct]

theorem botCtxStep_dailyLoss (s : BotCtx) (ev : BotCtxEvent) :
    (botCtxStep s ev).dailyLoss = s.dailyLoss + eventLossContribution s.currentTrade ev := by
  cases ev with
  | tradeOpened tid => simp [botCtxStep, eventLossContribution]
  | update e =>
      unfold botCtxStep handleContractUpdate eventLossContribution
      rcases hct : s.currentTrade with _ | tid
      · cases hfin : contractFinished e <;> simp [hfin, hct]
      · cases hfin : contractFinished e <;> by_cases htid : tid = e.tradeId <;>
          by_cases hlost : e.status = ContractStatus.lost <;>
            simp [hfin, htid, hlost, hct]

theorem foldl_botCtxStep_dailyLoss (evts : List BotCtxEvent) :
    ∀ s : BotCtx, (List.foldl botCtxStep s evts).dailyLoss
      = s.dailyLoss + attributedLosses s.currentTrade evts := by
  induction evts with
  | nil => intro s; simp [attributedLosses]
  | cons ev rest ih =>
      intro s
      simp only [List.foldl_cons, attributedLosses]
      rw [ih (botCtxStep s ev), botCtxStep_dailyLoss, botCtxStep_currentTrade]
      ring

theorem foldl_followerStep_eq (evts : List FollowerEvent) :
    List.foldl followerStep 0 evts
      = ((sinceLastZeroing evts).map followerLossContribution).sum := by
  induction evts using List.reverseRecOn with
  | nil => simp [sinceLastZeroing]
  | append_singleton l e ih =>
      rw [List.foldl_append]
      cases e with
      | resetDailyLoss =>
          simp [sinceLastZeroing, followerStep, List.reverse_append, zeroesAccumulator]
      | register =>
          simp [sinceLastZeroing, followerStep, List.reverse_append, zeroesAccumulator]
      | settlement matched status profit =>
          have hsince : sinceLastZeroing (l ++ [.settlement matched status profit])
              = sinceLastZeroing l ++ [.settlement matched status profit] := by
            unfold sinceLastZeroing
            rw [List.reverse_append]
            simp [zeroesAccumulator, List.takeWhile_cons]
          rw [hsince]
          simp only [List.foldl_cons, List.foldl_nil, List.map_append, List.sum_append,
            List.map_cons, List.map_nil, List.sum_cons, List.sum_nil]
          rw [← ih]
          unfold followerStep followerLossContribution
          cases hml : matched && status == ContractStatus.lost <;> simp [hml]

/-- Claim C1: evaluation at the failing schedule.  When a second tick is
dispatched while the first tick's `Trade.create` is still awaited, both
pass the `currentTrade` guard, so two trade records are created and two
proposal requests are issued with no settlement in between — in
particular, after the first trade record exists a further proposal is
still issued before that trade settles.  By contrast, under the
sequential schedule in which the create resolves before the next tick,
only one trade is created: the slot assignment is not synchronous with
the decision, which is exactly the window the claim rules out. -/
theorem duplicate_trade_race :
    (runBot botRunInit
        [.tickDelivered true, .tickDelivered true, .createResolved, .createResolved]).createdTrades
      = [0, 1] ∧
    (runBot botRunInit
        [.tickDelivered true, .tickDelivered true, .createResolved, .createResolved]).proposals
      = [0, 1] ∧
    (runBot botRunInit
        [.tickDelivered true, .createResolved, .tickDelivered true, .createResolved]).createdTrades
      = [0] := by
  decide

/-- Claim C2: evaluating the reconnect path at a session that was
subscribed to `ticks_R_100` with one queued send shows that the fresh
connection built by `connect` has an empty subscription set and an empty
message queue, and even after authentication nothing is flushed — the
prior subscription set is not reinstated and the queued send is lost. -/
theorem reconnect_drops_subscriptions :
    (preCloseSession.connection.map ConnectionData.subscriptions = some ["ticks_R_100"] ∧
      preCloseSession.connection.map ConnectionData.messageQueue = some [42]) ∧
    ((reconnectTimerFire preCloseSession).connection.map ConnectionData.subscriptions
        = some [] ∧
      (reconnectTimerFire preCloseSession).connection.map ConnectionData.messageQueue
        = some []) ∧
    (handleAuthorize (reconnectTimerFire preCloseSession)).2 = [] ∧
    ((handleAuthorize (reconnectTimerFire preCloseSession)).1.connection.map
        ConnectionData.subscriptions = some []) := by
  decide

/-- Claim C3: evaluation at a transport that closes unexpectedly after
every reconnect.  Because `connect` resets the attempt counter to zero on
every scheduled reconnect, six unexpected closes arm six reconnect timers
(exceeding the ceiling of five), every delay stays at the base interval
3000 (the counter never grows past one, so the linear scaling never
advances), no `max_reconnect_failed` is ever emitted and the session is
never removed. -/
theorem reconnect_never_gives_up :
    (runReconnect connectedReconnectState
        (List.flatten (List.replicate 6
          [ReconnectEvent.unexpectedClose, ReconnectEvent.timerFires]))).scheduledReconnects
      = 6 ∧
    (runReconnect connectedReconnectState
        (List.flatten (List.replicate 6
          [ReconnectEvent.unexpectedClose, ReconnectEvent.timerFires]))).giveUpEvents = 0 ∧
    (runReconnect connectedReconnectState
        (List.flatten (List.replicate 6
          [ReconnectEvent.unexpectedClose, ReconnectEvent.timerFires]))).hasConnection = true ∧
    (runReconnect connectedReconnectState
        (List.flatten (List.replicate 6
          [ReconnectEvent.unexpectedClose, ReconnectEvent.timerFires]))).delays
      = List.replicate 6 3000 := by
  decide

/-- Claim C4 counterexample: `registerFollower` zeroes the accumulator
(part_000:28) without any `resetDailyLoss` call, so after a matched lost
settlement of magnitude 200 followed by a re-registration the accumulator
reads 0 while the sum of losses since the last `resetDailyLoss` call is
200 — the claimed invariant fails at this run. -/
theorem registerFollower_breaks_dailyLoss_invariant :
    List.foldl followerStep 0 reRegistrationRun = 0 ∧
    ((sinceLastReset reRegistrationRun).map followerLossContribution).sum = 200 ∧
    List.foldl followerStep 0 reRegistrationRun
      ≠ ((sinceLastReset reRegistrationRun).map followerLossContribution).sum := by
  refine ⟨?_, ?_, ?_⟩ <;>
    norm_num [reRegistrationRun, followerStep, sinceLastReset, isResetEvent,
      followerLossContribution, List.takeWhile]

/-- Claim C4 (amended): along every run, a bot context's daily-loss
accumulator equals the sum of the absolute profit magnitudes of the
settlements the contract-update handler attributes to that context with
status lost (the accumulator starts at zero when the context is created),
and a copy-trade follower's daily-loss accumulator equals the sum of the
absolute loss magnitudes of that follower's matched lost settlements since
the most recent accumulator zeroing — a `resetDailyLoss` call or a
`registerFollower` (re-)registration, which also zeroes the entry
(part_000:28). -/
theorem dailyLoss_is_sum_of_losses :
    (∀ evts : List BotCtxEvent,
        (List.foldl botCtxStep
            { currentTrade := none, dailyLoss := 0, consecutiveLosses := 0 } evts).dailyLoss
          = attributedLosses none evts) ∧
    (∀ evts : List FollowerEvent,
        List.foldl followerStep 0 evts
          = ((sinceLastZeroing evts).map followerLossContribution).sum) := by
  constructor
  · intro evts
    rw [foldl_botCtxStep_dailyLoss]
    simp
  · exact foldl_followerStep_eq

/-- Claim C5: the fan-out over a leader's followers is per-follower
isolated: replication over any follower list splits pointwise, so one
follower's outcome (including a thrown exception, outcome `failed`) never
prevents the remaining followers from being processed; the number of
successfully created copy trades equals the number of followers passing
every guard; and the concrete scenario of three followers, one disabled
and one with insufficient balance, yields exactly one created copy trade. -/
theorem replicateTrade_isolated_fanout :
    (∀ (fs1 fs2 : List FollowerRec) (f : FollowerRec) (st : ℚ),
        replicateTrade (fs1 ++ f :: fs2) st =
          replicateTrade fs1 st ++ copyTradeToFollower f st :: replicateTrade fs2 st) ∧
    (∀ (fs : List FollowerRec) (st : ℚ),
        (replicateTrade fs st).length = fs.length ∧
        ((replicateTrade fs st).filter isCreatedOutcome).length
          = (fs.filter fun f => copySucceeds f st).length) ∧
    ((replicateTrade [followerDisabled, followerBroke, followerOk] 100).filter
        isCreatedOutcome).length = 1 := by
  refine ⟨?_, ?_, by decide⟩
  · intro fs1 fs2 f st
    simp [replicateTrade]
  · intro fs st
    refine ⟨by simp [replicateTrade], ?_⟩
    unfold replicateTrade
    rw [List.filter_map]
    rw [List.length_map]
    congr 1
    apply List.filter_congr
    intro f _
    exact isCreated_copyTradeToFollower f st

/-- Claim C6: `calculateFollowerStake` is a pure function of the follower's
settings, balance and the leader's stake implementing the three-tier
policy: a configured (positive) fixed amount wins, else a configured
(positive) risk percentage of balance, else the lesser of the leader's
stake and two percent of balance; at balance 1000, riskPercentage 5 and
no fixed amount it yields 50. -/
theorem calculateFollowerStake_policy (f : FollowerRec) (st : ℚ)
    (hinv : ∀ v ∈ f.settings.investmentPerTrade, 0 < v)
    (hrisk : ∀ v ∈ f.settings.riskPercentage, 0 < v) :
    (∀ v, f.settings.investmentPerTrade = some v → calculateFollowerStake f st = v) ∧
    (f.settings.investmentPerTrade = none →
      ∀ r, f.settings.riskPercentage = some r →
        calculateFollowerStake f st = f.balance * r / 100) ∧
    (f.settings.investmentPerTrade = none → f.settings.riskPercentage = none →
      calculateFollowerStake f st = min st (f.balance * (2 / 100))) ∧
    (f.settings.investmentPerTrade = none → f.settings.riskPercentage = some 5 →
      f.balance = 1000 → calculateFollowerStake f st = 50) := by
  refine ⟨?_, ?_, ?_, ?_⟩
  · intro v hv
    have hpos : 0 < v := hinv v (by simp [hv])
    simp [calculateFollowerStake, jsTruthy, hv, ne_of_gt hpos]
  · intro hnone r hr
    have hpos : 0 < r := hrisk r (by simp [hr])
    simp [calculateFollowerStake, jsTruthy, hnone, hr, ne_of_gt hpos]
  · intro hnone hrnone
    simp [calculateFollowerStake, jsTruthy, hnone, hrnone]
  · intro hnone hr hbal
    simp [calculateFollowerStake, jsTruthy, hnone, hr, hbal]
    norm_num

/-- Witness for claim C6 at the concrete input of the claim. -/
theorem calculateFollowerStake_policy_witness :
    calculateFollowerStake percentFollower 100 = 50 := by
  have h := calculateFollowerStake_policy percentFollower 100
    (by intro v hv; simp [percentFollower] at hv)
    (by intro v hv; simp [percentFollower] at hv; subst hv; norm_num)
  exact h.2.2.2 rfl rfl rfl

/-- Claim C7 counterexample: a frame carrying both the `balance` and the
`tick` keys makes `handleMessage` emit two typed events, refuting the
claimed at-most-one-event-per-frame bound. -/
theorem handleMessage_two_events :
    ¬ (handleMessage frameBalanceTick).length ≤ 1 := by decide

/-- Claim C7 (amended): `handleMessage` emits exactly one typed event per
recognised top-level key present in a frame — in particular at most one
whenever at most one recognised key is present — and a frame with none of
the recognised keys produces no events and no error. -/
theorem handleMessage_event_count (f : Frame) :
    (handleMessage f).length = recognisedKeyCount f ∧
    (handleMessage f = [] ↔ recognisedKeyCount f = 0) := by
  obtain ⟨a, b, c, d, e, p, q, r, s, t⟩ := f
  cases a <;> cases b <;> cases c <;> cases d <;> cases e <;>
    cases p <;> cases q <;> cases r <;> cases s <;> cases t <;>
      exact ⟨by decide, by decide⟩

/-- Claim C8: over any 15-price window, `calculateRSI` with period 14
returns 100 when the prices are strictly increasing (the average loss is
zero) and 0 when they are strictly decreasing. -/
theorem calculateRSI_monotone_window (prices : List ℚ) (hlen : prices.length = 15) :
    (List.Chain' (· < ·) prices → calculateRSI prices 14 = some 100) ∧
    (List.Chain' (· > ·) prices → calculateRSI prices 14 = some 0) := by
  have hnotlt : ¬ prices.length < 14 + 1 := by rw [hlen]; norm_num
  have hdrop : prices.drop (prices.length - (14 + 1)) = prices := by
    rw [hlen]
    norm_num
  have hchlen : (rsiChanges prices 14).length = 14 := by
    unfold rsiChanges
    rw [hdrop, List.length_map, List.length_zip, List.length_tail, hlen]
    norm_num
  constructor
  · intro hchain
    have hall : ∀ c ∈ rsiChanges prices 14, 0 < c := by
      intro c hc
      unfold rsiChanges at hc
      rw [hdrop] at hc
      rcases List.mem_map.mp hc with ⟨p, hp, rfl⟩
      have := chain_rel_zip_tail prices hchain p hp
      linarith
    have hloss : rsiLosses prices 14 = 0 := by
      unfold rsiLosses
      rw [List.filter_eq_nil_iff.mpr ?_]
      · simp
      · intro c hc
        simp only [decide_eq_true_eq, not_le]
        exact hall c hc
    unfold calculateRSI
    rw [if_neg hnotlt, hloss]
    simp
  · intro hchain
    have hall : ∀ c ∈ rsiChanges prices 14, c < 0 := by
      intro c hc
      unfold rsiChanges at hc
      rw [hdrop] at hc
      rcases List.mem_map.mp hc with ⟨p, hp, rfl⟩
      have := chain_rel_zip_tail prices hchain p hp
      simp only [gt_iff_lt] at this
      linarith
    have hgain : rsiGains prices 14 = 0 := by
      unfold rsiGains
      rw [List.filter_eq_nil_iff.mpr ?_]
      · simp
      · intro c hc
        simp only [decide_eq_true_eq, not_lt]
        exact le_of_lt (hall c hc)
    have hfilter_all :
        (rsiChanges prices 14).filter (fun c => decide (c ≤ 0)) = rsiChanges prices 14 := by
      rw [List.filter_eq_self]
      intro c hc
      simp [le_of_lt (hall c hc)]
    have hlosspos : 0 < rsiLosses prices 14 := by
      unfold rsiLosses
      rw [hfilter_all]
      have hne : rsiChanges prices 14 ≠ [] := by
        intro hnil
        rw [hnil] at hchlen
        simp at hchlen
      have := sum_neg_of_mem_neg _ hall hne
      linarith
    have havg : rsiLosses prices 14 / ((14 : Nat) : ℚ) ≠ 0 :=
      div_ne_zero (ne_of_gt hlosspos) (by norm_num)
    unfold calculateRSI
    rw [if_neg hnotlt, if_neg havg, hgain]
    norm_num

/-- Witness for claim C8 on the two concrete monotone 15-price windows. -/
theorem calculateRSI_monotone_window_witness :
    calculateRSI [1, 2, 3, 4, 5, 6, 7, 8, 9, 10, 11, 12, 13, 14, 15] 14 = some 100 ∧
    calculateRSI [15, 14, 13, 12, 11, 10, 9, 8, 7, 6, 5, 4, 3, 2, 1] 14 = some 0 :=
  ⟨(calculateRSI_monotone_window _ (by rfl)).1 (by norm_num [List.chain'_cons]),
   (calculateRSI_monotone_window _ (by rfl)).2 (by norm_num [List.chain'_cons])⟩

/-- Claim C9 counterexample: the window -1, 1 has length 2 ≥ period 2 and
population standard deviation 1, yet its SMA is 0 — falsy in JavaScript —
so `calculateBollingerBands` returns `null` (part_001:312) and no band
width of `2 * k * sd` is returned; the same window shifted to mean 1
returns bands of exactly that width, so the output does depend on the
mean. -/
theorem bollinger_zero_mean_no_bands :
    calculateSMA [(-1 : ℚ), 1] 2 = some 0 ∧
    (1 : ℚ) ^ 2 = bollingerVariance [(-1 : ℚ), 1] 2 0 ∧
    calculateBollingerBands [(-1 : ℚ), 1] 2 2 1 = none ∧
    (calculateBollingerBands [(-1 : ℚ), 1] 2 2 1).map (fun b => b.upper - b.lower)
      ≠ some (2 * 2 * 1) ∧
    (calculateBollingerBands [(0 : ℚ), 2] 2 2 1).map (fun b => b.upper - b.lower)
      = some (2 * 2 * 1) := by
  refine ⟨by norm_num [calculateSMA], by norm_num [bollingerVariance], ?_, ?_, ?_⟩
  · norm_num [calculateBollingerBands, calculateSMA]
  · norm_num [calculateBollingerBands, calculateSMA]
    simp
  · norm_num [calculateBollingerBands, calculateSMA, BollingerBands.mk.injEq]

/-- Claim C9 (amended): whenever the price list is at least `period` long
and the window SMA is nonzero (a zero SMA is falsy in JavaScript, so
`calculateBollingerBands` returns null for it), the upper band minus the
lower band equals exactly `2 * k * sd` where `sd` is the population
standard deviation of the last `period` prices (characterised by `0 ≤ sd`
and `sd ^ 2` equal to the population variance); among such windows the
width is independent of the mean: shifting every price by a constant
shifts the SMA but leaves the variance — and, when the shifted SMA is
still nonzero, the returned width — unchanged. -/
theorem bollinger_width_nonzero_sma (prices : List ℚ) (period : Nat) (k sd sma : ℚ)
    (hper : 0 < period)
    (hsma : calculateSMA prices period = some sma)
    (hsma0 : sma ≠ 0)
    (hsd0 : 0 ≤ sd) (hsd : sd ^ 2 = bollingerVariance prices period sma) :
    (calculateBollingerBands prices period k sd).map (fun b => b.upper - b.lower)
        = some (2 * k * sd) ∧
    ∀ c : ℚ, calculateSMA (prices.map fun p => p + c) period = some (sma + c) ∧
      bollingerVariance (prices.map fun p => p + c) period (sma + c)
        = bollingerVariance prices period sma ∧
      (sma + c ≠ 0 →
        (calculateBollingerBands (prices.map fun p => p + c) period k sd).map
            (fun b => b.upper - b.lower) = some (2 * k * sd)) := by
  have hlen : ¬ prices.length < period := by
    intro hlt
    unfold calculateSMA at hsma
    rw [if_pos hlt] at hsma
    cases hsma
  have hsma_eq : sma = (prices.drop (prices.length - period)).sum / (period : ℚ) := by
    unfold calculateSMA at hsma
    rw [if_neg hlen] at hsma
    exact (Option.some_inj.mp hsma).symm
  have hperQ : ((period : Nat) : ℚ) ≠ 0 := Nat.cast_ne_zero.mpr (Nat.pos_iff_ne_zero.mp hper)
  have hwin : (prices.drop (prices.length - period)).length = period := by
    rw [List.length_drop]
    exact Nat.sub_sub_self (Nat.le_of_not_lt hlen)
  constructor
  · unfold calculateBollingerBands
    rw [hsma]
    simp only [hsma0, ite_false, Option.map_some']
    congr 1
    ring
  · intro c
    have hmaplen : (prices.map fun p => p + c).length = prices.length := List.length_map _ _
    have hdropmap : (prices.map fun p => p + c).drop (prices.length - period)
        = (prices.drop (prices.length - period)).map fun p => p + c :=
      (List.map_drop _ _ _).symm
    have h1 : calculateSMA (prices.map fun p => p + c) period = some (sma + c) := by
      unfold calculateSMA
      rw [hmaplen, if_neg hlen, hdropmap, sum_map_add_const, hwin, hsma_eq]
      congr 1
      field_simp
      ring
    have h2 : bollingerVariance (prices.map fun p => p + c) period (sma + c)
        = bollingerVariance prices period sma := by
      unfold bollingerVariance
      have hfun : ((prices.drop (prices.length - period)).map
            ((fun p => (p - (sma + c)) ^ 2) ∘ fun p => p + c))
          = (prices.drop (prices.length - period)).map fun p => (p - sma) ^ 2 := by
        apply List.map_congr_left
        intro p _
        simp only [Function.comp_apply]
        ring
      rw [hmaplen, hdropmap, List.map_map, hfun]
    refine ⟨h1, h2, ?_⟩
    intro hc
    unfold calculateBollingerBands
    rw [h1]
    simp only [hc, ite_false, Option.map_some']
    congr 1
    ring

/-- Witness for claim C9 (amended) at the window 0, 2 with period 2, k = 2,
standard deviation 1 and a mean shift of 3. -/
theorem bollinger_width_nonzero_sma_witness :
    (calculateBollingerBands [0, 2] 2 2 1).map (fun b => b.upper - b.lower)
        = some (2 * 2 * 1) ∧
    calculateSMA ([0, 2].map fun p => p + 3) 2 = some (1 + 3) := by
  have h := bollinger_width_nonzero_sma [0, 2] 2 2 1 1 (by norm_num)
    (by norm_num [calculateSMA]) (by norm_num) (by norm_num)
    (by norm_num [bollingerVariance])
  exact ⟨h.1, (h.2 3).1⟩

/-- Claim C10: `registerFollower` unconditionally zeroes the follower's
daily-loss accumulator while adding the follower to the leader's set, so a
re-registration re-arms the max-daily-loss gate of `copyTradeToFollower`
(for any positive ceiling) without any `resetDailyLoss` call, whatever
loss was accrued before. -/
theorem registerFollower_resets_dailyLoss (s : CopyTradeServiceState)
    (followerId leaderId : Nat) (m : ℚ) (hm : 0 < m) :
    (registerFollower s followerId leaderId).dailyLoss followerId = 0 ∧
    followerId ∈ (registerFollower s followerId leaderId).followers leaderId ∧
    dailyLossGateBlocks (registerFollower s followerId leaderId) followerId m = false := by
  have h0 : (registerFollower s followerId leaderId).dailyLoss followerId = 0 := by
    simp [registerFollower]
  refine ⟨h0, by simp [registerFollower], ?_⟩
  rw [dailyLossGateBlocks, h0, decide_eq_false_iff_not]
  exact not_le.mpr hm

/-- Witness for claim C10: re-registering follower 7 under leader 3 zeroes
the accrued loss of 200 and unblocks the ceiling-100 gate. -/
theorem registerFollower_resets_dailyLoss_witness :
    (registerFollower blockedState 7 3).dailyLoss 7 = 0 ∧
    7 ∈ (registerFollower blockedState 7 3).followers 3 ∧
    dailyLossGateBlocks (registerFollower blockedState 7 3) 7 100 = false :=
  registerFollower_resets_dailyLoss blockedState 7 3 100 (by norm_num)
